import Mathlib

/-!
Verification development for the `task_app` repository.

The repository has two parts that the properties below concern:

* `api/index.py` — a Vercel serverless adapter: one-time Django (WSGI)
  initialization at module load, and a `handler` function that normalizes an
  inbound request object of variable shape into a WSGI environ, invokes the
  WSGI application, and converts the WSGI response into the Vercel envelope
  `{statusCode, headers, body}`.

* `task_app/views.py` + `task_app/models.py` — Django views over a single
  `Task` model (title, description, created_at, updated_at, completed):
  `task_list` (search / filter / pagination / aggregate counts), `edit_task`,
  `toggle_task`, and friends.

Python strings are modelled as Lean `String` values, and the string
operations the code uses (`lower`, `split`, `lstrip`, `startswith`,
`encode('utf-8')`, `decode('utf-8', errors='replace')`) are given explicit
executable models over `List Char` / `List Nat` so that every definition
evaluates inside the kernel.  Byte strings are `List Nat` with each entry
below 256.  The external collaborators (the WSGI application, the Vercel
runtime's request object, the ORM store, the wall clock) are parameters of
the definitions.
-/

namespace TaskApp

/-- Python `str.lower()` (ASCII case folding, which is what the code's
case-insensitive comparisons exercise). -/
def lowerStr (s : String) : String := ⟨s.data.map Char.toLower⟩

/-- Substring test on character lists: does `needle` occur contiguously in
`hay`?  (Model of Python's `in` / SQL `LIKE '%needle%'`.) -/
def containsSub (needle hay : List Char) : Bool :=
  match hay with
  | [] => needle.isEmpty
  | _ :: t => needle.isPrefixOf hay || containsSub needle t

/-- Case-insensitive substring test: Python `needle.lower() in hay.lower()`,
the semantics of Django's `icontains` lookup. -/
def containsCI (needle hay : String) : Bool :=
  containsSub (lowerStr needle).data (lowerStr hay).data

/-- Python `s.split(sep)` for a one-character separator `sep`
(always yields at least one piece; no limit). -/
def pySplitChar (sep : Char) : List Char → List Char → List (List Char)
  | [], acc => [acc.reverse]
  | c :: t, acc =>
    if c = sep then acc.reverse :: pySplitChar sep t []
    else pySplitChar sep t (c :: acc)

/-- Python `host.split(':')` as a list of strings. -/
def pySplitColon (s : String) : List String :=
  (pySplitChar ':' s.data []).map (fun cs => ⟨cs⟩)

/-- Python `s.lstrip('/')`: drop every leading `'/'`. -/
def pyLstripSlash (s : String) : String := ⟨s.data.dropWhile (fun c => c = '/')⟩

/-- Python `s.startswith(p)`. -/
def pyStartsWith (s p : String) : Bool := p.data.isPrefixOf s.data

/-- UTF-8 encoding of one Unicode scalar value (Python `chr(n).encode('utf-8')`
for a valid scalar `n`). -/
def charUtf8 (c : Char) : List Nat :=
  let n := c.toNat
  if n < 0x80 then [n]
  else if n < 0x800 then [0xC0 + n / 64, 0x80 + n % 64]
  else if n < 0x10000 then
    [0xE0 + n / 4096, 0x80 + (n / 64) % 64, 0x80 + n % 64]
  else
    [0xF0 + n / 262144, 0x80 + (n / 4096) % 64, 0x80 + (n / 64) % 64, 0x80 + n % 64]

/-- Python `s.encode('utf-8')` as a byte list. -/
def strUtf8 (s : String) : List Nat := (s.data.map charUtf8).flatten

/-- Is `b` a UTF-8 continuation byte (`0x80..0xBF`)? -/
def isCont (b : Nat) : Bool := 0x80 ≤ b && b ≤ 0xBF

/-- The Unicode replacement character U+FFFD. -/
def repl : Char := '�'

/-- Lower bound on the first continuation byte of a three-byte sequence
(WHATWG UTF-8 decoding; excludes overlong forms). -/
def e0Lower (b : Nat) : Nat := if b = 0xE0 then 0xA0 else 0x80

/-- Upper bound on the first continuation byte of a three-byte sequence
(excludes surrogate encodings for lead byte `0xED`). -/
def edUpper (b : Nat) : Nat := if b = 0xED then 0x9F else 0xBF

/-- Lower bound on the first continuation byte of a four-byte sequence. -/
def f0Lower (b : Nat) : Nat := if b = 0xF0 then 0x90 else 0x80

/-- Upper bound on the first continuation byte of a four-byte sequence. -/
def f4Upper (b : Nat) : Nat := if b = 0xF4 then 0x8F else 0xBF

/-- One step of WHATWG UTF-8 decoding: given the first byte `b` and the
remaining bytes `rest`, return the decoded character (U+FFFD on an invalid
maximal subsequence) and how many further bytes of `rest` were consumed. -/
def utf8Step (b : Nat) (rest : List Nat) : Char × Nat :=
  if b ≤ 0x7F then (Char.ofNat b, 0)
  else if 0xC2 ≤ b && b ≤ 0xDF then
    match rest with
    | b2 :: _ =>
      if isCont b2 then (Char.ofNat ((b - 0xC0) * 64 + (b2 - 0x80)), 1)
      else (repl, 0)
    | [] => (repl, 0)
  else if 0xE0 ≤ b && b ≤ 0xEF then
    match rest with
    | b2 :: rest2 =>
      if e0Lower b ≤ b2 && b2 ≤ edUpper b then
        match rest2 with
        | b3 :: _ =>
          if isCont b3 then
            (Char.ofNat ((b - 0xE0) * 4096 + (b2 - 0x80) * 64 + (b3 - 0x80)), 2)
          else (repl, 1)
        | [] => (repl, 1)
      else (repl, 0)
    | [] => (repl, 0)
  else if 0xF0 ≤ b && b ≤ 0xF4 then
    match rest with
    | b2 :: rest2 =>
      if f0Lower b ≤ b2 && b2 ≤ f4Upper b then
        match rest2 with
        | b3 :: rest3 =>
          if isCont b3 then
            match rest3 with
            | b4 :: _ =>
              if isCont b4 then
                (Char.ofNat ((b - 0xF0) * 262144 + (b2 - 0x80) * 4096 +
                  (b3 - 0x80) * 64 + (b4 - 0x80)), 3)
              else (repl, 2)
            | [] => (repl, 2)
          else (repl, 1)
        | [] => (repl, 1)
      else (repl, 0)
    | [] => (repl, 0)
  else (repl, 0)

/-- UTF-8 decoding with replacement (Python `bytes.decode('utf-8',
errors='replace')`): each maximal invalid subsequence becomes one U+FFFD;
the function is total — it never fails. -/
def utf8DecodeReplaceAux : Nat → List Nat → List Char
  | _, [] => []
  | 0, _ :: _ => []
  | fuel + 1, b :: rest =>
    let s := utf8Step b rest
    s.1 :: utf8DecodeReplaceAux fuel (rest.drop s.2)

/-- Decoding with replacement; each step consumes at least one byte, so fuel
equal to the byte count always suffices and the `0` fuel case is unreachable. -/
def utf8DecodeReplaceChars (bs : List Nat) : List Char :=
  utf8DecodeReplaceAux bs.length bs

/-- Python `bytes.decode('utf-8', errors='replace')` as a `String`. -/
def utf8DecodeReplace (bs : List Nat) : String := ⟨utf8DecodeReplaceChars bs⟩

/-- Is `utf8Step` at `b`, `rest` a successful decode (as opposed to a
replacement for an invalid sequence)?  `b ≥ 0x80` decoding to U+FFFD can only
come from the three-byte encoding `EF BF BD` of U+FFFD itself, so comparing
against `repl` with a multi-byte check is exact. -/
def utf8StepOk (b : Nat) (rest : List Nat) : Bool :=
  (utf8Step b rest).1 ≠ repl || b ≤ 0x7F ||
    ((utf8Step b rest).2 = 2 && rest.take 2 = [0xBF, 0xBD])

/-- Strict UTF-8 decoding (Python `bytes.decode('utf-8')`): `none` models a
raised `UnicodeDecodeError`. -/
def utf8DecodeStrictAux : Nat → List Nat → Option (List Char)
  | _, [] => some []
  | 0, _ :: _ => none
  | fuel + 1, b :: rest =>
    if utf8StepOk b rest then
      let s := utf8Step b rest
      (utf8DecodeStrictAux fuel (rest.drop s.2)).map (s.1 :: ·)
    else none

/-- Strict decoding driver (fuel as above). -/
def utf8DecodeStrictChars (bs : List Nat) : Option (List Char) :=
  utf8DecodeStrictAux bs.length bs

/-- Python `bytes.decode('utf-8')` as an optional `String` (`none` = raise). -/
def utf8DecodeStrict (bs : List Nat) : Option String :=
  (utf8DecodeStrictChars bs).map (fun cs => ⟨cs⟩)


/-! ## The Vercel adapter (`api/index.py`) -/

/-- A Python byte string. -/
abbrev Bytes := List Nat

/-- A value that may be a `str` or a `bytes` (the adapter type-checks both). -/
inductive StrOrBytes
  | str (s : String)
  | bytes (bs : Bytes)
deriving DecidableEq

/-- A candidate request body value: `bytes`, `str`, or anything else
(the adapter leaves the body empty for any other type). -/
inductive BodyVal
  | bytes (bs : Bytes)
  | str (s : String)
  | other
deriving DecidableEq

/-- The dictionary-like accessor shape (`hasattr(request, 'get')` with a
callable `get`): `request.get(key, default)` returns the stored value for
`key` or the supplied default. -/
structure DictShape where
  methodD : Option String := none
  pathD : Option String := none
  queryStringD : Option String := none
  headersD : Option (List (String × String)) := none
  bodyD : Option BodyVal := none
deriving DecidableEq

/-- The inbound Vercel request object, of variable shape: each datum may be
exposed as a direct attribute, via a URL attribute, or through the
dictionary-like accessor, or be absent altogether.  The three header shapes
the code probes (plain `dict`, an object with `.items()`, an object with
`.get` that is iterable over keys) all denote the same finite name→value
mapping and are modelled as one association list. -/
structure VercelRequest where
  methodAttr : Option String := none
  pathAttr : Option String := none
  urlAttr : Option String := none
  queryStringAttr : Option StrOrBytes := none
  headersAttr : Option (List (String × String)) := none
  bodyAttr : Option BodyVal := none
  dict : Option DictShape := none
deriving DecidableEq

/-- A Python exception crossing the adapter's try/except boundaries:
either an `AttributeError` (caught by the inner handler) or any other
exception (caught by the outermost handler).  The payload is `str(e)`. -/
inductive PyExn
  | attrErr (msg : String)
  | exn (msg : String)
deriving DecidableEq

/-- The message `str(e)` of an exception. -/
def PyExn.msg : PyExn → String
  | .attrErr m => m
  | .exn m => m

/-- Modelled from Python's `urllib.parse.urlparse(u).path` for the URL shapes
the adapter meets (an absolute `scheme://netloc/path?query` URL or a bare
path): after an optional `scheme://netloc` prefix, the path extends up to the
first `?` or `#`. -/
def afterSchemeSep : List Char → Option (List Char)
  | [] => none
  | ':' :: '/' :: '/' :: t => some t
  | _ :: t => afterSchemeSep t

/-- Modelled from Python's `urllib.parse.urlparse(u).path` (continued):
the path extraction itself. -/
def urlparsePath (u : String) : String :=
  let takeUntilQ (cs : List Char) : List Char :=
    cs.takeWhile (fun c => c ≠ '?' && c ≠ '#')
  let dropNetloc (cs : List Char) : List Char :=
    cs.dropWhile (fun c => c ≠ '/' && c ≠ '?' && c ≠ '#')
  match afterSchemeSep u.data with
  | some rest => ⟨takeUntilQ (dropNetloc rest)⟩
  | none => ⟨takeUntilQ u.data⟩

/-- The query-string part of a URL: everything after the first `?`
(Python `str(url).split('?', 1)[1]`). -/
def urlQueryPart (u : String) : String :=
  ⟨(u.data.dropWhile (fun c => c ≠ '?')).drop 1⟩

/-- `index.py` lines 63–68: the request method, default `'GET'`. -/
def getMethod (r : VercelRequest) : String :=
  match r.methodAttr with
  | some m => m
  | none =>
    match r.dict with
    | some d => d.methodD.getD "GET"
    | none => "GET"

/-- `index.py` lines 70–78: the raw path, before normalization. -/
def rawPath (r : VercelRequest) : String :=
  match r.pathAttr with
  | some p => p
  | none =>
    match r.urlAttr with
    | some u => urlparsePath u
    | none =>
      match r.dict with
      | some d => d.pathD.getD "/"
      | none => "/"

/-- `index.py` lines 80–82: ensure the path starts with `/`. -/
def normalizePath (p : String) : String :=
  if p = "" || !pyStartsWith p "/" then "/" ++ pyLstripSlash p else p

/-- `index.py` lines 84–91: the query string; a `bytes` value is decoded
strictly as UTF-8, so an invalid byte sequence raises (a
`UnicodeDecodeError`, not an `AttributeError`). -/
def getQueryString (r : VercelRequest) : Except PyExn String :=
  match r.queryStringAttr with
  | some (.str s) => .ok s
  | some (.bytes bs) =>
    match utf8DecodeStrict bs with
    | some s => .ok s
    | none => .error (.exn "invalid utf-8 in query string")
  | none =>
    match r.urlAttr with
    | some u =>
      if containsSub ['?'] u.data then .ok (urlQueryPart u)
      else
        match r.dict with
        | some d => .ok (d.queryStringD.getD "")
        | none => .ok ""
    | none =>
      match r.dict with
      | some d => .ok (d.queryStringD.getD "")
      | none => .ok ""

/-- `index.py` lines 93–104: the request headers, default empty. -/
def getHeaders (r : VercelRequest) : List (String × String) :=
  match r.headersAttr with
  | some hs => hs
  | none =>
    match r.dict with
    | some d => d.headersD.getD []
    | none => []

/-- `index.py` lines 106–118: the request body as bytes; a `str` body is
UTF-8 encoded, any other type leaves the body empty. -/
def getBody (r : VercelRequest) : Bytes :=
  match r.bodyAttr with
  | some (.bytes bs) => bs
  | some (.str s) => strUtf8 s
  | some .other => []
  | none =>
    match r.dict with
    | some d =>
      match d.bodyD with
      | some (.bytes bs) => bs
      | some (.str s) => strUtf8 s
      | some .other => []
      | none => []
    | none => []

/-- `index.py` line 121: `headers.get('host', headers.get('Host', 'localhost'))`. -/
def hostOf (headers : List (String × String)) : String :=
  match headers.lookup "host" with
  | some h => h
  | none => (headers.lookup "Host").getD "localhost"

/-- `index.py` lines 124–129: the scheme starts as `'https'` and is replaced
by a truthy (non-empty) `x-forwarded-proto` / `X-Forwarded-Proto` header. -/
def detectScheme (headers : List (String × String)) : String :=
  let xfpLower := (headers.lookup "x-forwarded-proto").getD ""
  let xfpUpper := (headers.lookup "X-Forwarded-Proto").getD ""
  if xfpLower ≠ "" then xfpLower
  else if xfpUpper ≠ "" then xfpUpper
  else "https"

/-- `index.py` line 139: `SERVER_NAME = host_parts[0]`. -/
def serverNameOf (headers : List (String × String)) : String :=
  (pySplitColon (hostOf headers)).headD ""

/-- `index.py` line 140: `SERVER_PORT = host_parts[1]` when the host has a
colon, else `'443'` if the scheme is `'https'` else `'80'`. -/
def serverPortOf (headers : List (String × String)) : String :=
  let parts := pySplitColon (hostOf headers)
  if parts.length > 1 then parts.getD 1 ""
  else if detectScheme headers = "https" then "443" else "80"

/-- Modelled from the spec's words for claim C3 (to be compared with the
code's `serverPortOf`): an https scheme counts as "detected via the
X-Forwarded-Proto header" when that header is present with value `https`. -/
def xfpHttpsDetected (headers : List (String × String)) : Bool :=
  headers.lookup "x-forwarded-proto" = some "https" ||
    headers.lookup "X-Forwarded-Proto" = some "https"

/-- Modelled from the spec's words for claim C3: "the port defaults to 443
if and only if an https scheme was detected via the X-Forwarded-Proto
header, and to 80 otherwise". -/
def specDefaultPort (headers : List (String × String)) : String :=
  if xfpHttpsDetected headers then "443" else "80"

/-- `index.py` line 137: content type from the headers, default `''`. -/
def contentTypeOf (headers : List (String × String)) : String :=
  match headers.lookup "content-type" with
  | some v => v
  | none => (headers.lookup "Content-Type").getD ""

/-- Python `key.upper().replace('-', '_')`. -/
def pyUpperUnderscore (k : String) : String :=
  ⟨k.data.map (fun c => if c = '-' then '_' else c.toUpper)⟩

/-- `index.py` lines 150–154: every header except content type/length becomes
an `HTTP_`-prefixed environ entry with upper-cased, `-`→`_` name. -/
def environHttpHeaders (headers : List (String × String)) : List (String × String) :=
  (headers.filter (fun kv =>
      pyUpperUnderscore kv.1 ≠ "CONTENT_TYPE" && pyUpperUnderscore kv.1 ≠ "CONTENT_LENGTH")).map
    (fun kv => ("HTTP_" ++ pyUpperUnderscore kv.1, kv.2))

/-- The WSGI environ the adapter builds (`index.py` lines 131–154).
`wsgi.*` bookkeeping entries that carry no request data are omitted. -/
structure Environ where
  requestMethod : String
  pathInfo : String
  scriptName : String
  queryString : String
  contentType : String
  contentLength : String
  serverName : String
  serverPort : String
  urlScheme : String
  inputBody : Bytes
  httpHeaders : List (String × String)
deriving DecidableEq

/-- `index.py` lines 60–154: normalize the inbound request into a WSGI
environ.  The only step that can raise is the strict UTF-8 decode of a bytes
query string. -/
def buildEnviron (r : VercelRequest) : Except PyExn Environ := do
  let method := getMethod r
  let path := normalizePath (rawPath r)
  let qs ← getQueryString r
  let headers := getHeaders r
  let body := getBody r
  return { requestMethod := method
           pathInfo := path
           scriptName := ""
           queryString := qs
           contentType := contentTypeOf headers
           contentLength := toString body.length
           serverName := serverNameOf headers
           serverPort := serverPortOf headers
           urlScheme := detectScheme headers
           inputBody := body
           httpHeaders := environHttpHeaders headers }

/-- One WSGI response body chunk: `bytes`, or any other value, carried with
its `str(chunk)` rendering (`index.py` line 170 coerces via
`str(chunk).encode('utf-8')`). -/
inductive Chunk
  | bytes (bs : Bytes)
  | nonBytes (s : String)
deriving DecidableEq

/-- The bytes a chunk contributes (`index.py` lines 170, 174). -/
def chunkBytes : Chunk → Bytes
  | .bytes bs => bs
  | .nonBytes s => strUtf8 s

/-- A WSGI response body: either a list of chunks or a single value
(`index.py` lines 168–174 distinguish `isinstance(response_body, list)`). -/
inductive WsgiBody
  | chunkList (cs : List Chunk)
  | single (c : Chunk)
deriving DecidableEq

/-- The canonical response of one WSGI invocation: the numeric status (the
code stores `int(status.split()[0])` from the `start_response` status line),
the ordered header pairs passed to `start_response`, and the body. -/
structure WsgiResult where
  status : Nat
  headersList : List (String × String)
  respBody : WsgiBody
deriving DecidableEq

/-- `index.py` lines 167–174: concatenate the body to one byte string,
coercing every non-bytes chunk to its UTF-8 encoding. -/
def normalizeBodyBytes : WsgiBody → Bytes
  | .chunkList cs => (cs.map chunkBytes).flatten
  | .single c => chunkBytes c

/-- Python dict assignment `d[k] = v` on an association list with unique
keys: overwrite in place if present, else append. -/
def dictAssign (d : List (String × String)) (k v : String) : List (String × String) :=
  if d.any (fun kv => kv.1 = k) then d.map (fun kv => if kv.1 = k then (k, v) else kv)
  else d ++ [(k, v)]

/-- Python dict lookup `d.get(k)` on the association-list representation. -/
def lookupD (d : List (String × String)) (k : String) : Option String :=
  match d with
  | [] => none
  | kv :: t => if kv.1 = k then some kv.2 else lookupD t k

/-- `index.py` lines 176–180: restate the response headers as a dict with
lower-cased names (`headers_dict[header[0].lower()] = str(header[1])`, in
order, so a later duplicate overwrites an earlier one). -/
def buildHeadersDict (hs : List (String × String)) : List (String × String) :=
  hs.foldl (fun d kv => dictAssign d (lowerStr kv.1) kv.2) []

/-- The Vercel response envelope `{statusCode, headers, body}`. -/
structure VercelResponse where
  statusCode : Nat
  headersDict : List (String × String)
  respBody : String
deriving DecidableEq

/-- `index.py` lines 167–187: convert a WSGI result into the Vercel
envelope (body decoded as UTF-8 with replacement). -/
def normalizeResponse (w : WsgiResult) : VercelResponse :=
  { statusCode := w.status
    headersDict := buildHeadersDict w.headersList
    respBody := utf8DecodeReplace (normalizeBodyBytes w.respBody) }

/-- The module-level initialization outcome (`index.py` lines 20–35):
loaded, or failed with a captured message and traceback. -/
structure InitState where
  django_loaded : Bool
  django_error : String
  django_traceback : String
deriving DecidableEq

/-- `index.py` lines 25–35: run the one-time module-level initialization,
capturing a failure's message and traceback. -/
def moduleInit : Except (String × String) Unit → InitState
  | .ok _ => { django_loaded := true, django_error := "", django_traceback := "" }
  | .error (e, tb) => { django_loaded := false, django_error := e, django_traceback := tb }

/-- The WSGI application (external collaborator): from an environ it either
produces a canonical response or raises. -/
abbrev WsgiApp := Environ → Except PyExn WsgiResult

/-- `index.py` line 45: the diagnostic body shown when initialization failed. -/
def initErrorBody (st : InitState) : String :=
  "Django initialization error: " ++ st.django_error ++ "\n\n" ++ st.django_traceback

/-- The `Content-Type` header dict of every diagnostic 500 response. -/
def textPlainHeaders : List (String × String) :=
  [("Content-Type", "text/plain; charset=utf-8")]

/-- `index.py` lines 62–187 (the inner `try` block): normalize the request,
invoke the application, normalize the response; any of the three steps may
raise. -/
def innerBody (app : WsgiApp) (r : VercelRequest) : Except PyExn VercelResponse := do
  let env ← buildEnviron r
  let w ← app env
  return normalizeResponse w

/-- `index.py` lines 37–208: the adapter handler.  If initialization failed,
answer the captured diagnostic; otherwise run the inner block, converting an
`AttributeError` via the inner `except` (lines 189–197) and any other
exception via the outermost `except` (lines 199–208) into 500 responses. -/
def handler (st : InitState) (app : WsgiApp) (r : VercelRequest) : VercelResponse :=
  if !st.django_loaded then
    { statusCode := 500, headersDict := textPlainHeaders, respBody := initErrorBody st }
  else
    match innerBody app r with
    | .ok resp => resp
    | .error (.attrErr m) =>
      { statusCode := 500, headersDict := textPlainHeaders
        respBody := "Request handling error: " ++ m }
    | .error (.exn m) =>
      { statusCode := 500, headersDict := textPlainHeaders
        respBody := "Internal Server Error: " ++ m }


/-! ## The task application (`task_app/models.py`, `task_app/views.py`)

The ORM store is modelled as the list of task rows in the query order of
`Task.objects.all()` (the model's `Meta.ordering` is creation time
descending; no claim below depends on the order).  Timestamps are abstract
`Nat` instants supplied by the wall clock, an external collaborator: a
mutating view takes the current instant `now` as a parameter, and `save()`
refreshes `updated_at` to it (the `auto_now=True` field option in
`models.py` line 30). -/

/-- One row of the `Task` model (`models.py` lines 16–31). -/
structure Task where
  id : Nat
  title : String
  description : Option String
  created_at : Nat
  updated_at : Nat
  completed : Bool
deriving DecidableEq

/-- The task store: the rows of the task table. -/
abbrev Store := List Task

/-- `Task.objects.get(id=i)` / `get_object_or_404`: the row with the given
primary key, if any. -/
def getTask (s : Store) (i : Nat) : Option Task := s.find? (fun t => t.id = i)

/-- `task.save()`: persist the row with the same primary key, with
`updated_at` refreshed to the current instant by `auto_now=True`. -/
def saveTask (s : Store) (t : Task) (now : Nat) : Store :=
  s.map (fun u => if u.id = t.id then { t with updated_at := now } else u)

/-- A transient user notification (`django.contrib.messages`). -/
structure Message where
  level : String
  text : String
deriving DecidableEq

/-- The query parameters `task_list` reads (`views.py` lines 35, 45, 53):
`request.GET.get('search', '')`, `request.GET.get('filter', '')`, and
`request.GET.get('page')` (absent, or an integer as sent by the page links;
a non-integer raw value behaves like an absent one). -/
structure ListParams where
  search : String := ""
  filterStatus : String := ""
  page : Option Int := none
deriving DecidableEq

/-- The context dictionary `task_list` renders (`views.py` lines 57–64);
`tasks` is the page of tasks produced by the paginator. -/
structure ListContext where
  tasks : List Task
  search_query : String
  filter_status : String
  total_tasks : Nat
  completed_tasks : Nat
  pending_tasks : Nat
deriving DecidableEq

/-- `views.py` lines 38–41: `Q(title__icontains=q) | Q(description__icontains=q)`.
A `NULL` description matches nothing. -/
def matchesSearch (q : String) (t : Task) : Bool :=
  containsCI q t.title ||
    (match t.description with
     | some d => containsCI q d
     | none => false)

/-- Django `Paginator.num_pages` for page size `per` with
`allow_empty_first_page`: `ceil(max(1, count) / per)`. -/
def numPages (count per : Nat) : Nat :=
  if count = 0 then 1 else (count + per - 1) / per

/-- Django `Paginator.get_page` page-number handling: an absent or
non-integer number becomes page 1, an out-of-range number (below 1 or above
`num_pages`) becomes the last page. -/
def validatePageNumber (page : Option Int) (np : Nat) : Nat :=
  match page with
  | none => 1
  | some n => if n < 1 then np else if n > (np : Int) then np else n.toNat

/-- Django `Paginator.page(n).object_list` for page size `per`:
the slice `[(n-1)*per : n*per]`. -/
def pageItems (l : List Task) (per n : Nat) : List Task :=
  (l.drop ((n - 1) * per)).take per

/-- `views.py` line 42: the search notification
`f'Found {tasks.count()} task(s) matching "{search_query}"'`. -/
def searchMessage (q : String) (count : Nat) : Message :=
  { level := "info"
    text := "Found " ++ toString count ++ " task(s) matching \"" ++ q ++ "\"" }

/-- `views.py` lines 19–67: the list view.  Returns the rendered context and
the emitted notifications. -/
def task_list (store : Store) (p : ListParams) : ListContext × List Message :=
  let searched := if p.search ≠ "" then store.filter (matchesSearch p.search) else store
  let msgs := if p.search ≠ "" then [searchMessage p.search searched.length] else []
  let filtered :=
    if p.filterStatus = "completed" then searched.filter (fun t => t.completed)
    else if p.filterStatus = "pending" then searched.filter (fun t => !t.completed)
    else searched
  let np := numPages filtered.length 6
  let n := validatePageNumber p.page np
  ({ tasks := pageItems filtered 6 n
     search_query := p.search
     filter_status := p.filterStatus
     total_tasks := store.length
     completed_tasks := (store.filter (fun t => t.completed)).length
     pending_tasks := (store.filter (fun t => !t.completed)).length }, msgs)

/-- What a view invocation produces: Django's `Http404` (from
`get_object_or_404`), a rendered template, or a redirect to the list view. -/
inductive ViewResponse
  | notFound
  | rendered (template : String)
  | redirectList
deriving DecidableEq

/-- The `POST` data of the task form (`forms.py`: fields `title`,
`description`, `completed`). -/
structure EditPost where
  title : String := ""
  description : String := ""
  completed : Bool := false
deriving DecidableEq

/-- Python `s.strip()` restricted to spaces (what Django's `CharField`
cleaning applies before validation). -/
def stripStr (s : String) : String :=
  ⟨((s.data.dropWhile (fun c => c = ' ')).reverse.dropWhile (fun c => c = ' ')).reverse⟩

/-- `TaskForm.is_valid()` on the title field: required and at most 100
characters (`models.py` line 27, `forms.py` line 55). -/
def formValid (title : String) : Bool :=
  stripStr title ≠ "" && (stripStr title).length ≤ 100

/-- `views.py` lines 103–139: the edit view.  Returns the response, the
resulting store, and the emitted notifications. -/
def edit_task (store : Store) (i : Nat) (method : String) (post : EditPost) (now : Nat) :
    ViewResponse × Store × List Message :=
  match getTask store i with
  | none => (.notFound, store, [])
  | some t =>
    if method = "POST" then
      if formValid post.title then
        let t2 := { t with title := stripStr post.title
                           description := some post.description
                           completed := post.completed }
        (.redirectList, saveTask store t2 now,
         [{ level := "success", text := "Task \"" ++ t2.title ++ "\" updated successfully!" }])
      else
        (.rendered "tasks/task_form.html", store,
         [{ level := "error", text := "Please correct the errors below." }])
    else (.rendered "tasks/task_form.html", store, [])

/-- `views.py` lines 173–197: the toggle view.  Returns the response, the
resulting store, and the emitted notifications. -/
def toggle_task (store : Store) (i : Nat) (now : Nat) :
    ViewResponse × Store × List Message :=
  match getTask store i with
  | none => (.notFound, store, [])
  | some t =>
    let t2 := { t with completed := !t.completed }
    let store2 := saveTask store t2 now
    let status := if t2.completed then "completed" else "marked as pending"
    (.redirectList, store2,
     [{ level := "success", text := "Task \"" ++ t2.title ++ "\" " ++ status ++ "!" }])

end TaskApp

namespace TaskApp

/-! ## Support lemmas -/

/-- A list is a contiguous sublist of itself. -/
theorem containsSub_self (n : List Char) : containsSub n n = true := by
  cases n with
  | nil => rfl
  | cons c t =>
    simp only [containsSub, Bool.or_eq_true]
    left
    simp [List.isPrefixOf_iff_prefix]

/-- A suffix occurs as a contiguous sublist. -/
theorem containsSub_append_self (pre n : List Char) : containsSub n (pre ++ n) = true := by
  induction pre with
  | nil => simpa using containsSub_self n
  | cons c t ih =>
    simp only [List.cons_append, containsSub, Bool.or_eq_true]
    right
    exact ih

/-- A string occurs as a substring of anything it suffixes. -/
theorem containsSub_str_append (pre n : String) :
    containsSub n.data (pre ++ n).data = true := by
  rw [String.data_append]
  exact containsSub_append_self pre.data n.data

end TaskApp

namespace TaskApp

/-- Claim C1: if module-level initialization fails at process start with
message `e` and traceback `tb`, then every subsequent invocation of the
adapter handler returns status 500 with the same captured diagnostic body
`"Django initialization error: <e>\n\n<tb>"` and the plain-text header;
the output is identical across invocations and independent of the WSGI
application, so initialization is never re-attempted and the application is
never invoked in this state. -/
theorem claim_C1 (e tb : String) (app app2 : WsgiApp) (r r2 : VercelRequest) :
    handler (moduleInit (.error (e, tb))) app r =
      { statusCode := 500
        headersDict := textPlainHeaders
        respBody := "Django initialization error: " ++ e ++ "\n\n" ++ tb } ∧
    handler (moduleInit (.error (e, tb))) app r =
      handler (moduleInit (.error (e, tb))) app2 r2 := by
  constructor <;> simp [handler, moduleInit, initErrorBody]

/-- Claim C2: for every inbound request, any exception escaping the inner
block — request normalization, WSGI invocation, or response normalization —
is caught and converted into a returned 500 response whose body contains the
exception's message; the handler itself is a total function, so no exception
ever propagates to the caller. -/
theorem claim_C2 (st : InitState) (app : WsgiApp) (r : VercelRequest) (ex : PyExn)
    (hloaded : st.django_loaded = true) (herr : innerBody app r = .error ex) :
    (handler st app r).statusCode = 500 ∧
    containsSub ex.msg.data (handler st app r).respBody.data = true := by
  cases ex with
  | attrErr m =>
    simp only [handler, hloaded, herr, Bool.not_true, Bool.false_eq_true, if_false]
    exact ⟨trivial, containsSub_str_append "Request handling error: " m⟩
  | exn m =>
    simp only [handler, hloaded, herr, Bool.not_true, Bool.false_eq_true, if_false]
    exact ⟨trivial, containsSub_str_append "Internal Server Error: " m⟩

/-- Witness for C2: the loaded state, a WSGI application that raises
`"boom"`, and the empty-shaped request. -/
theorem claim_C2_witness :
    (moduleInit (.ok ())).django_loaded = true ∧
    innerBody (fun _ => .error (.exn "boom")) {} = .error (.exn "boom") ∧
    (handler (moduleInit (.ok ())) (fun _ => .error (.exn "boom")) {}).statusCode = 500 ∧
    containsSub (PyExn.exn "boom").msg.data
      (handler (moduleInit (.ok ())) (fun _ => .error (.exn "boom")) {}).respBody.data = true := by
  refine ⟨rfl, rfl, ?_⟩
  exact claim_C2 (moduleInit (.ok ())) (fun _ => .error (.exn "boom")) {} (.exn "boom") rfl rfl

end TaskApp

namespace TaskApp

/-- Splitting a list without the separator yields one piece. -/
theorem pySplitChar_of_not_mem (sep : Char) (cs acc : List Char) (h : sep ∉ cs) :
    pySplitChar sep cs acc = [acc.reverse ++ cs] := by
  induction cs generalizing acc with
  | nil => simp [pySplitChar]
  | cons c t ih =>
    have hc : ¬ c = sep := by rintro rfl; exact h (List.mem_cons_self c t)
    have ht : sep ∉ t := fun hm => h (List.mem_cons_of_mem _ hm)
    simp [pySplitChar, hc, ih (c :: acc) ht]

/-- Splitting at the first separator occurrence. -/
theorem pySplitChar_append_sep (sep : Char) (xs ys acc : List Char) (h : sep ∉ xs) :
    pySplitChar sep (xs ++ sep :: ys) acc =
      (acc.reverse ++ xs) :: pySplitChar sep ys [] := by
  induction xs generalizing acc with
  | nil => simp [pySplitChar]
  | cons c t ih =>
    have hc : ¬ c = sep := by rintro rfl; exact h (List.mem_cons_self c t)
    have ht : sep ∉ t := fun hm => h (List.mem_cons_of_mem _ hm)
    simp [pySplitChar, hc, ih (c :: acc) ht]

/-- A host without a colon splits into itself alone. -/
theorem pySplitColon_no_colon (s : String) (h : ':' ∉ s.data) :
    pySplitColon s = [s] := by
  cases s with
  | mk d =>
    simp only [pySplitColon, pySplitChar_of_not_mem ':' d [] h, List.map_cons, List.map_nil,
      List.reverse_nil, List.nil_append]

/-- A `name:port` host with colon-free pieces splits into the two pieces. -/
theorem pySplitColon_name_port (name port : String)
    (h1 : ':' ∉ name.data) (h2 : ':' ∉ port.data) :
    pySplitColon (name ++ ":" ++ port) = [name, port] := by
  have hdata : (name ++ ":" ++ port).data = name.data ++ ':' :: port.data := by
    rw [String.data_append, String.data_append]
    simp
  cases name with
  | mk nd =>
    cases port with
    | mk pd =>
      simp only [pySplitColon, hdata]
      rw [pySplitChar_append_sep ':' nd pd [] h1, pySplitChar_of_not_mem ':' pd [] h2]
      simp

/-- Claim C3, counterexample: for a request whose headers carry a Host with
no port and no `X-Forwarded-Proto` header at all, the code's `SERVER_PORT`
defaults to `"443"` (because the scheme variable starts as `'https'`),
while the claim's "443 iff https was detected via X-Forwarded-Proto, else
80" demands `"80"`. -/
theorem claim_C3_counterexample :
    xfpHttpsDetected [("host", "example.com")] = false ∧
    serverPortOf [("host", "example.com")] = "443" ∧
    specDefaultPort [("host", "example.com")] = "80" ∧
    serverPortOf [("host", "example.com")] ≠ specDefaultPort [("host", "example.com")] := by
  refine ⟨rfl, ?_, rfl, ?_⟩ <;> decide

/-- Claim C3 as amended: `SERVER_NAME` and `SERVER_PORT` are derived by
splitting the Host header value on `':'`; when the Host carries no port the
port defaults to `"443"` if and only if the effective scheme is `https`,
where the effective scheme is the non-empty `X-Forwarded-Proto` header value
when present and `'https'` (not `http`) when that header is absent or empty;
when the Host carries a port, that port is used. -/
theorem claim_C3_amended (headers : List (String × String)) (name port : String)
    (hname : ':' ∉ name.data) (hport : ':' ∉ port.data) :
    (hostOf headers = name →
      serverNameOf headers = name ∧
      serverPortOf headers = (if detectScheme headers = "https" then "443" else "80")) ∧
    (hostOf headers = name ++ ":" ++ port →
      serverNameOf headers = name ∧ serverPortOf headers = port) := by
  constructor
  · intro hh
    have hsplit : pySplitColon (hostOf headers) = [name] := by
      rw [hh]; exact pySplitColon_no_colon name hname
    constructor
    · simp [serverNameOf, hsplit]
    · simp [serverPortOf, hsplit]
  · intro hh
    have hsplit : pySplitColon (hostOf headers) = [name, port] := by
      rw [hh]; exact pySplitColon_name_port name port hname hport
    constructor
    · simp [serverNameOf, hsplit]
    · simp [serverPortOf, hsplit]

/-- Witness for the amended C3: a port-less Host falls back to the
scheme-determined default, and a `host:port` Host supplies the port. -/
theorem claim_C3_witness :
    (hostOf [("host", "example.com")] = "example.com" ∧
     serverNameOf [("host", "example.com")] = "example.com" ∧
     serverPortOf [("host", "example.com")] =
       (if detectScheme [("host", "example.com")] = "https" then "443" else "80")) ∧
    (hostOf [("Host", "example.com:8000")] = "example.com" ++ ":" ++ "8000" ∧
     serverNameOf [("Host", "example.com:8000")] = "example.com" ∧
     serverPortOf [("Host", "example.com:8000")] = "8000") := by
  have h1 := claim_C3_amended [("host", "example.com")] "example.com" "8000"
    (by decide) (by decide)
  have h2 := claim_C3_amended [("Host", "example.com:8000")] "example.com" "8000"
    (by decide) (by decide)
  exact ⟨⟨rfl, h1.1 rfl⟩, ⟨by decide, h2.2 (by decide)⟩⟩

end TaskApp

namespace TaskApp

/-- The normalized path always starts with `/`. -/
theorem normalizePath_startsWith (p : String) :
    pyStartsWith (normalizePath p) "/" = true := by
  unfold normalizePath
  by_cases h : (decide (p = "") || !pyStartsWith p "/") = true
  · rw [if_pos h]
    show List.isPrefixOf "/".data ("/" ++ pyLstripSlash p).data = true
    rw [String.data_append]
    simp [List.isPrefixOf]
  · rw [if_neg h]
    simp only [Bool.or_eq_true, decide_eq_true_eq, Bool.not_eq_true', not_or] at h
    simpa using h.2

/-- Claim C4: whenever a request datum — method, path, query string,
headers, or body — is absent under every accessor shape the adapter probes,
the environ built from the request falls back to the default (`GET`, `/`,
empty query string, empty headers, empty body), and the path always starts
with `/`. -/
theorem claim_C4 (r : VercelRequest) (env : Environ)
    (henv : buildEnviron r = .ok env) :
    (r.methodAttr = none → (∀ d, r.dict = some d → d.methodD = none) →
        env.requestMethod = "GET") ∧
    (r.pathAttr = none → r.urlAttr = none → (∀ d, r.dict = some d → d.pathD = none) →
        env.pathInfo = "/") ∧
    (r.queryStringAttr = none → r.urlAttr = none →
        (∀ d, r.dict = some d → d.queryStringD = none) → env.queryString = "") ∧
    (r.headersAttr = none → (∀ d, r.dict = some d → d.headersD = none) →
        getHeaders r = [] ∧ env.httpHeaders = []) ∧
    (r.bodyAttr = none → (∀ d, r.dict = some d → d.bodyD = none) →
        env.inputBody = []) ∧
    pyStartsWith env.pathInfo "/" = true := by
  unfold buildEnviron at henv
  cases hq : getQueryString r with
  | error e =>
    rw [hq] at henv
    simp [bind, Except.bind] at henv
  | ok qs =>
    rw [hq] at henv
    simp only [bind, Except.bind, pure, Except.pure, Except.ok.injEq] at henv
    subst henv
    refine ⟨?_, ?_, ?_, ?_, ?_, ?_⟩
    · intro hm hd
      show getMethod r = "GET"
      unfold getMethod
      rw [hm]
      cases hdict : r.dict with
      | none => rfl
      | some d => simp [hd d hdict]
    · intro hp hu hd
      show normalizePath (rawPath r) = "/"
      have : rawPath r = "/" := by
        unfold rawPath
        rw [hp, hu]
        cases hdict : r.dict with
        | none => rfl
        | some d => simp [hd d hdict]
      rw [this]
      decide
    · intro hqa hu hd
      show qs = ""
      have : getQueryString r = .ok "" := by
        unfold getQueryString
        rw [hqa, hu]
        cases hdict : r.dict with
        | none => rfl
        | some d => simp [hd d hdict]
      rw [this] at hq
      exact (Except.ok.injEq _ _ ▸ hq).symm ▸ rfl
    · intro hh hd
      have hhl : getHeaders r = [] := by
        unfold getHeaders
        rw [hh]
        cases hdict : r.dict with
        | none => rfl
        | some d => simp [hd d hdict]
      exact ⟨hhl, by show environHttpHeaders (getHeaders r) = []; rw [hhl]; rfl⟩
    · intro hb hd
      show getBody r = []
      unfold getBody
      rw [hb]
      cases hdict : r.dict with
      | none => rfl
      | some d => simp [hd d hdict]
    · exact normalizePath_startsWith (rawPath r)

/-- Witness for C4: the fully absent request (every accessor shape missing)
yields the default environ. -/
theorem claim_C4_witness :
    buildEnviron ({} : VercelRequest) =
      .ok { requestMethod := "GET", pathInfo := "/", scriptName := "", queryString := ""
            contentType := "", contentLength := "0", serverName := "localhost"
            serverPort := "443", urlScheme := "https", inputBody := [], httpHeaders := [] } ∧
    ({ requestMethod := "GET", pathInfo := "/", scriptName := "", queryString := ""
       contentType := "", contentLength := "0", serverName := "localhost"
       serverPort := "443", urlScheme := "https", inputBody := [],
       httpHeaders := [] } : Environ).requestMethod = "GET" ∧
    ({ requestMethod := "GET", pathInfo := "/", scriptName := "", queryString := ""
       contentType := "", contentLength := "0", serverName := "localhost"
       serverPort := "443", urlScheme := "https", inputBody := [],
       httpHeaders := [] } : Environ).pathInfo = "/" ∧
    getHeaders ({} : VercelRequest) = [] ∧
    pyStartsWith "/" "/" = true := by
  have h := claim_C4 {}
    { requestMethod := "GET", pathInfo := "/", scriptName := "", queryString := ""
      contentType := "", contentLength := "0", serverName := "localhost"
      serverPort := "443", urlScheme := "https", inputBody := [], httpHeaders := [] } rfl
  refine ⟨rfl, h.1 rfl ?_, h.2.1 rfl rfl ?_, (h.2.2.2.1 rfl ?_).1, h.2.2.2.2.2⟩ <;>
    exact fun d hd => by cases hd

end TaskApp

namespace TaskApp

/-- Lookup after overwriting every entry with key `k`. -/
theorem lookupD_map_assign (d : List (String × String)) (k v k2 : String) :
    lookupD (d.map (fun kv => if kv.1 = k then (k, v) else kv)) k2 =
      (if k2 = k then (if d.any (fun kv => kv.1 = k) then some v else none)
       else lookupD d k2) := by
  induction d with
  | nil => simp [lookupD]
  | cons kv t ih =>
    by_cases hk2 : k2 = k
    · subst hk2
      by_cases hk : kv.1 = k2
      · simp [lookupD, hk, ih]
      · simp [lookupD, hk, ih]
        rw [decide_eq_false hk, Bool.false_or]
    · by_cases hk : kv.1 = k
      · simp [lookupD, hk, hk2, Ne.symm hk2, ih]
      · simp [lookupD, hk, hk2, ih]

/-- Lookup distributes over append as left-biased choice. -/
theorem lookupD_append (d1 d2 : List (String × String)) (k : String) :
    lookupD (d1 ++ d2) k = (lookupD d1 k).or (lookupD d2 k) := by
  induction d1 with
  | nil => simp [lookupD]
  | cons kv t ih =>
    by_cases hk : kv.1 = k <;> simp [lookupD, hk, ih]

/-- If no entry carries key `k`, lookup of `k` finds nothing. -/
theorem lookupD_eq_none (d : List (String × String)) (k : String)
    (h : d.any (fun kv => kv.1 = k) = false) : lookupD d k = none := by
  induction d with
  | nil => rfl
  | cons kv t ih =>
    simp only [List.any_cons, Bool.or_eq_false_iff, decide_eq_false_iff_not] at h
    simp [lookupD, h.1, ih h.2]

/-- Python dict assignment: the assigned key now maps to the new value and
every other key is untouched. -/
theorem lookupD_dictAssign (d : List (String × String)) (k v k2 : String) :
    lookupD (dictAssign d k v) k2 = if k2 = k then some v else lookupD d k2 := by
  unfold dictAssign
  by_cases hany : d.any (fun kv => kv.1 = k) = true
  · rw [if_pos hany, lookupD_map_assign, hany]
    by_cases hk2 : k2 = k <;> simp [hk2]
  · rw [if_neg hany, lookupD_append]
    have hnone : lookupD d k = none :=
      lookupD_eq_none d k (Bool.not_eq_true _ ▸ hany)
    by_cases hk2 : k2 = k
    · subst hk2
      rw [hnone, if_pos rfl]
      simp [lookupD]
    · rw [if_neg hk2]
      have hone : lookupD [(k, v)] k2 = none := by simp [lookupD, Ne.symm hk2]
      rw [hone, Option.or_none]

/-- The headers dict built by the adapter answers every lookup like the
reversed list of lower-cased pairs: the last pair with a given lower-cased
name wins. -/
theorem lookupD_buildHeadersDict (hs : List (String × String)) (k : String) :
    lookupD (buildHeadersDict hs) k =
      lookupD ((hs.map (fun kv => (lowerStr kv.1, kv.2))).reverse) k := by
  suffices h : ∀ d, lookupD (hs.foldl (fun d kv => dictAssign d (lowerStr kv.1) kv.2) d) k =
      (lookupD ((hs.map (fun kv => (lowerStr kv.1, kv.2))).reverse) k).or (lookupD d k) by
    have h0 := h []
    simpa [buildHeadersDict, lookupD, Option.or_none] using h0
  induction hs with
  | nil => intro d; simp [lookupD, Option.or]
  | cons kv t ih =>
    intro d
    rw [List.foldl_cons, ih, List.map_cons, List.reverse_cons, lookupD_append,
      lookupD_dictAssign]
    cases lookupD ((t.map (fun kv => (lowerStr kv.1, kv.2))).reverse) k with
    | some w => rfl
    | none =>
      by_cases hk : k = lowerStr kv.1
      · simp [Option.none_or, lookupD, hk]
      · simp [Option.none_or, lookupD, hk, Ne.symm hk]

/-- Claim C5: the adapter's outbound envelope has (a) a body equal to the
concatenation of the response chunks — each non-byte chunk coerced to the
UTF-8 encoding of its string form — decoded as UTF-8 with invalid sequences
replaced (a total function, so decoding never raises), for both the
chunk-list and the single-value body shapes; and (b) a headers dict that
answers every lookup with the value of the last header pair whose
lower-cased name matches. -/
theorem claim_C5 (w : WsgiResult) (k : String) :
    (∀ cs, w.respBody = .chunkList cs →
      (normalizeResponse w).respBody = utf8DecodeReplace ((cs.map chunkBytes).flatten)) ∧
    (∀ c, w.respBody = .single c →
      (normalizeResponse w).respBody = utf8DecodeReplace (chunkBytes c)) ∧
    (∀ s2, chunkBytes (.nonBytes s2) = strUtf8 s2) ∧
    lookupD (normalizeResponse w).headersDict k =
      lookupD ((w.headersList.map (fun kv => (lowerStr kv.1, kv.2))).reverse) k := by
  refine ⟨?_, ?_, fun s2 => rfl, ?_⟩
  · intro cs hcs
    simp [normalizeResponse, normalizeBodyBytes, hcs]
  · intro c hc
    simp [normalizeResponse, normalizeBodyBytes, hc]
  · exact lookupD_buildHeadersDict w.headersList k

/-- Witness for C5 at a concrete response: two chunks (bytes and non-bytes)
and duplicate header names differing in case. -/
theorem claim_C5_witness :
    (normalizeResponse
        { status := 200
          headersList := [("X-One", "a"), ("x-One", "b"), ("Content-Type", "text/html")]
          respBody := .chunkList [.bytes [104, 105], .nonBytes "é"] }).respBody =
      utf8DecodeReplace
        (([Chunk.bytes [104, 105], Chunk.nonBytes "é"].map chunkBytes).flatten) ∧
    lookupD (normalizeResponse
        { status := 200
          headersList := [("X-One", "a"), ("x-One", "b"), ("Content-Type", "text/html")]
          respBody := .chunkList [.bytes [104, 105], .nonBytes "é"] }).headersDict "x-one" =
      lookupD (([("X-One", "a"), ("x-One", "b"), ("Content-Type", "text/html")].map
          (fun kv => (lowerStr kv.1, kv.2))).reverse) "x-one" ∧
    lookupD (normalizeResponse
        { status := 200
          headersList := [("X-One", "a"), ("x-One", "b"), ("Content-Type", "text/html")]
          respBody := .chunkList [.bytes [104, 105], .nonBytes "é"] }).headersDict "x-one" =
      some "b" := by
  have h := claim_C5
    { status := 200
      headersList := [("X-One", "a"), ("x-One", "b"), ("Content-Type", "text/html")]
      respBody := .chunkList [.bytes [104, 105], .nonBytes "é"] } "x-one"
  exact ⟨h.1 _ rfl, h.2.2.2, by decide⟩

end TaskApp

namespace TaskApp

/-- Saving a task with the looked-up id persists it: a later lookup of the
same id returns the saved row, with `updated_at` refreshed to the save
instant. -/
theorem getTask_saveTask (store : Store) (i now : Nat) (t t2 : Task)
    (hget : getTask store i = some t) (hid : t2.id = t.id) :
    getTask (saveTask store t2 now) i = some { t2 with updated_at := now } := by
  unfold getTask at hget
  have hp := List.find?_some hget
  have hti : t.id = i := of_decide_eq_true hp
  unfold getTask saveTask
  revert hget
  induction store with
  | nil => intro hget; simp at hget
  | cons u rest ih =>
    intro hget
    rw [List.map_cons]
    by_cases hu : u.id = i
    · have hfind := List.find?_cons_of_pos (p := fun x => decide (x.id = i)) rest
        (decide_eq_true hu)
      have hut : u = t := Option.some.inj (hfind.symm.trans hget)
      rw [if_pos (show u.id = t2.id by rw [hut, hid])]
      exact List.find?_cons_of_pos _
        (decide_eq_true (show ({ t2 with updated_at := now } : Task).id = i by
          show t2.id = i
          rw [hid, hti]))
    · have hnp : ¬ ((fun x => decide (x.id = i)) u = true) := by simpa using hu
      rw [List.find?_cons_of_neg rest hnp] at hget
      rw [if_neg (show ¬ u.id = t2.id by rw [hid, hti]; exact hu)]
      rw [List.find?_cons_of_neg (p := fun x : Task => decide (x.id = i)) _ hnp]
      exact ih hget

/-- Claim C6: toggling an existing task flips its `completed` flag and
refreshes `updated_at` to the (strictly later) save instant, and persists
the change; toggling again restores the original `completed` value while
`updated_at` strictly increases once more — so toggle is an involution on
`completed`. -/
theorem claim_C6 (store : Store) (i : Nat) (t : Task) (t1 t2 : Nat)
    (hget : getTask store i = some t) (h1 : t.updated_at < t1) (h12 : t1 < t2) :
    ∃ u1 store1 msgs1 u2 store2 msgs2,
      toggle_task store i t1 = (.redirectList, store1, msgs1) ∧
      getTask store1 i = some u1 ∧
      u1.completed = !t.completed ∧
      u1.updated_at = t1 ∧
      t.updated_at < u1.updated_at ∧
      toggle_task store1 i t2 = (.redirectList, store2, msgs2) ∧
      getTask store2 i = some u2 ∧
      u2.completed = t.completed ∧
      u2.updated_at = t2 ∧
      u1.updated_at < u2.updated_at := by
  have e1 : toggle_task store i t1 =
      (.redirectList, saveTask store { t with completed := !t.completed } t1,
       [{ level := "success"
          text := "Task \"" ++ t.title ++ "\" " ++
            (if !t.completed then "completed" else "marked as pending") ++ "!" }]) := by
    unfold toggle_task
    rw [hget]
  have hget1 : getTask (saveTask store { t with completed := !t.completed } t1) i =
      some { t with completed := !t.completed, updated_at := t1 } :=
    getTask_saveTask store i t1 t { t with completed := !t.completed } hget rfl
  have e2 : toggle_task (saveTask store { t with completed := !t.completed } t1) i t2 =
      (.redirectList,
       saveTask (saveTask store { t with completed := !t.completed } t1)
         { t with completed := !(!t.completed), updated_at := t1 } t2,
       [{ level := "success"
          text := "Task \"" ++ t.title ++ "\" " ++
            (if !(!t.completed) then "completed" else "marked as pending") ++ "!" }]) := by
    unfold toggle_task
    rw [hget1]
  have hget2 : getTask
      (saveTask (saveTask store { t with completed := !t.completed } t1)
        { t with completed := !(!t.completed), updated_at := t1 } t2) i =
      some { t with completed := !(!t.completed), updated_at := t2 } :=
    getTask_saveTask _ i t2 { t with completed := !t.completed, updated_at := t1 }
      { t with completed := !(!t.completed), updated_at := t1 } hget1 rfl
  refine ⟨{ t with completed := !t.completed, updated_at := t1 }, _, _,
    { t with completed := !(!t.completed), updated_at := t2 }, _, _,
    e1, hget1, rfl, rfl, h1, e2, hget2, by simp, rfl, h12⟩

/-- Witness for C6 on a one-task store toggled at instants 1 and 2. -/
theorem claim_C6_witness :
    getTask [⟨1, "Buy milk", none, 0, 0, false⟩] 1 = some ⟨1, "Buy milk", none, 0, 0, false⟩ ∧
    (⟨1, "Buy milk", none, 0, 0, false⟩ : Task).updated_at < 1 ∧ (1 : Nat) < 2 ∧
    (∃ u1 store1 msgs1 u2 store2 msgs2,
      toggle_task [⟨1, "Buy milk", none, 0, 0, false⟩] 1 1 = (.redirectList, store1, msgs1) ∧
      getTask store1 1 = some u1 ∧
      u1.completed = !(⟨1, "Buy milk", none, 0, 0, false⟩ : Task).completed ∧
      u1.updated_at = 1 ∧
      (⟨1, "Buy milk", none, 0, 0, false⟩ : Task).updated_at < u1.updated_at ∧
      toggle_task store1 1 2 = (.redirectList, store2, msgs2) ∧
      getTask store2 1 = some u2 ∧
      u2.completed = (⟨1, "Buy milk", none, 0, 0, false⟩ : Task).completed ∧
      u2.updated_at = 2 ∧
      u1.updated_at < u2.updated_at) := by
  refine ⟨rfl, by decide, by decide, ?_⟩
  exact claim_C6 [⟨1, "Buy milk", none, 0, 0, false⟩] 1 ⟨1, "Buy milk", none, 0, 0, false⟩
    1 2 rfl (by decide) (by decide)

end TaskApp

namespace TaskApp

/-- Claim C7: the list view paginates with a fixed page size of 6; on a
store of exactly 13 tasks (no search or filter), pages 1 and 2 hold 6 tasks
each and page 3 holds 1. -/
theorem claim_C7 (store : Store) (h : store.length = 13) :
    ((task_list store { page := some 1 }).1.tasks).length = 6 ∧
    ((task_list store { page := some 2 }).1.tasks).length = 6 ∧
    ((task_list store { page := some 3 }).1.tasks).length = 1 := by
  have hne0 : ¬ (("" : String) ≠ "") := by decide
  have hne1 : ¬ (("" : String) = "completed") := by decide
  have hne2 : ¬ (("" : String) = "pending") := by decide
  refine ⟨?_, ?_, ?_⟩ <;>
    simp [task_list, pageItems, numPages, validatePageNumber, h, hne0, hne1, hne2,
      show store ≠ [] from fun he => by simp [he] at h]

/-- Witness for C7 at a store of 13 concrete tasks. -/
theorem claim_C7_witness :
    (List.replicate 13 (⟨1, "A", none, 0, 0, false⟩ : Task)).length = 13 ∧
    ((task_list (List.replicate 13 (⟨1, "A", none, 0, 0, false⟩ : Task))
        { page := some 1 }).1.tasks).length = 6 ∧
    ((task_list (List.replicate 13 (⟨1, "A", none, 0, 0, false⟩ : Task))
        { page := some 2 }).1.tasks).length = 6 ∧
    ((task_list (List.replicate 13 (⟨1, "A", none, 0, 0, false⟩ : Task))
        { page := some 3 }).1.tasks).length = 1 := by
  refine ⟨by simp, ?_⟩
  exact claim_C7 (List.replicate 13 ⟨1, "A", none, 0, 0, false⟩) (by simp)

/-- Claim C8: for a non-empty search query (and no status filter), the
collection the list view paginates is exactly the tasks whose title or
description contains the query case-insensitively; every task on the
returned page matches; and a query matching zero tasks yields an empty page
together with the zero-count informational notification. -/
theorem claim_C8 (store : Store) (q : String) (hq : q ≠ "") :
    (∀ t, t ∈ store.filter (matchesSearch q) ↔
      t ∈ store ∧ (containsCI q t.title = true ∨
        ∃ d, t.description = some d ∧ containsCI q d = true)) ∧
    (∀ page, (task_list store { search := q, page := page }).1.tasks ⊆
      store.filter (matchesSearch q)) ∧
    (store.filter (matchesSearch q) = [] →
      ∀ page, (task_list store { search := q, page := page }).1.tasks = [] ∧
        (task_list store { search := q, page := page }).2 = [searchMessage q 0]) := by
  refine ⟨?_, ?_, ?_⟩
  · intro t
    rw [List.mem_filter]
    cases hdesc : t.description <;> simp [matchesSearch, hdesc]
  · intro page x hx
    have hne1 : ¬ (("" : String) = "completed") := by decide
    have hne2 : ¬ (("" : String) = "pending") := by decide
    simp only [task_list, hq, ne_eq, not_false_eq_true, if_true, if_neg hne1,
      if_neg hne2, pageItems] at hx
    have hx2 := List.take_subset _ _ hx
    exact List.drop_subset _ _ hx2
  · intro hempty page
    have hne1 : ¬ (("" : String) = "completed") := by decide
    have hne2 : ¬ (("" : String) = "pending") := by decide
    constructor
    · simp [task_list, hq, hempty, hne1, hne2, pageItems]
    · simp [task_list, hq, hempty, hne1, hne2]

/-- Witness for C8: the query `"groceries"` against a one-task store that
does not match it. -/
theorem claim_C8_witness :
    ("groceries" : String) ≠ "" ∧
    ((⟨1, "Buy milk", none, 0, 0, false⟩ : Task) ∈
        [(⟨1, "Buy milk", none, 0, 0, false⟩ : Task)].filter (matchesSearch "groceries") ↔
      (⟨1, "Buy milk", none, 0, 0, false⟩ : Task) ∈ [(⟨1, "Buy milk", none, 0, 0, false⟩ : Task)] ∧
        (containsCI "groceries" (⟨1, "Buy milk", none, 0, 0, false⟩ : Task).title = true ∨
          ∃ d, (⟨1, "Buy milk", none, 0, 0, false⟩ : Task).description = some d ∧
            containsCI "groceries" d = true)) ∧
    (task_list [(⟨1, "Buy milk", none, 0, 0, false⟩ : Task)]
        { search := "groceries" }).1.tasks ⊆
      [(⟨1, "Buy milk", none, 0, 0, false⟩ : Task)].filter (matchesSearch "groceries") ∧
    [(⟨1, "Buy milk", none, 0, 0, false⟩ : Task)].filter (matchesSearch "groceries") = [] ∧
    (task_list [(⟨1, "Buy milk", none, 0, 0, false⟩ : Task)]
        { search := "groceries" }).1.tasks = [] ∧
    (task_list [(⟨1, "Buy milk", none, 0, 0, false⟩ : Task)]
        { search := "groceries" }).2 = [searchMessage "groceries" 0] := by
  have h := claim_C8 [(⟨1, "Buy milk", none, 0, 0, false⟩ : Task)] "groceries" (by decide)
  exact ⟨by decide, h.1 _, h.2.1 none, by decide,
    (h.2.2 (by decide) none).1, (h.2.2 (by decide) none).2⟩

/-- Claim C9: the edit view on an id that resolves to no task yields the
not-found (HTTP 404) outcome — not a server error — emits no notification,
and leaves the task store unchanged. -/
theorem claim_C9 (store : Store) (i : Nat) (method : String) (post : EditPost) (now : Nat)
    (h : getTask store i = none) :
    edit_task store i method post now = (.notFound, store, []) := by
  unfold edit_task
  rw [h]

/-- Witness for C9: editing id 7 in a one-task store holding only id 1. -/
theorem claim_C9_witness :
    getTask [(⟨1, "Buy milk", none, 0, 0, false⟩ : Task)] 7 = none ∧
    edit_task [(⟨1, "Buy milk", none, 0, 0, false⟩ : Task)] 7 "POST"
        { title := "X", description := "", completed := true } 5 =
      (.notFound, [(⟨1, "Buy milk", none, 0, 0, false⟩ : Task)], []) := by
  refine ⟨rfl, ?_⟩
  exact claim_C9 [(⟨1, "Buy milk", none, 0, 0, false⟩ : Task)] 7 "POST"
    { title := "X", description := "", completed := true } 5 rfl

/-- Claim C10: the aggregate counts the list view returns (total, completed,
pending) are computed over the entire task store, for every combination of
search/filter/page parameters — so they can disagree with the number of
tasks on the returned page, as the 7-task store with its 6-task first page
shows. -/
theorem claim_C10 :
    (∀ (store : Store) (p : ListParams),
      (task_list store p).1.total_tasks = store.length ∧
      (task_list store p).1.completed_tasks = (store.filter (fun t => t.completed)).length ∧
      (task_list store p).1.pending_tasks = (store.filter (fun t => !t.completed)).length) ∧
    ((task_list (List.replicate 7 (⟨1, "A", none, 0, 0, false⟩ : Task)) {}).1.tasks).length ≠
      (task_list (List.replicate 7 (⟨1, "A", none, 0, 0, false⟩ : Task)) {}).1.total_tasks := by
  exact ⟨fun store p => ⟨rfl, rfl, rfl⟩, by decide⟩

end TaskApp
